import Mathlib

/-!
Verification of the client-side form-validation script
`app/static/js/auth-validation.js` of the arbitrage repository.

The script runs in a single-threaded, event-driven environment.  We embed it
shallowly:

* DOM elements (the feedback nodes created next to the inputs) are values of
  a structure `Elem`; the relevant part of the document — the children of the
  input containers, in document order — is a `List Elem`, so `appendChild`
  is appending at the end of the list and `document.getElementById` is a
  first-match search.
* The username watcher's debounce behaviour is a state machine
  `UsernameState` driven by timestamped input events; `setTimeout` stores a
  due time and the captured payload, `clearTimeout` drops it, and a timer
  whose due time has been reached before the next event fires and appends
  the request payload to the `requests` trace.
* The fetch / then / catch chain of the availability check is a function of
  the network outcome (`FetchOutcome`), returning the updated document and
  the `console.error` log.
* JavaScript truthiness of the decoded JSON field `data.available` is
  embedded by the type `JsVal` and the function `truthy`.
-/

/-- A DOM element as far as this script observes it: its `id`, `className`,
`textContent` and inline `style.color`. A freshly created `div` has empty
text and no inline color. -/
structure Elem where
  id : String
  className : String
  textContent : String
  color : String
deriving Repr, DecidableEq

/-- The children of the input containers in document order. -/
abbrev Dom := List Elem

/-- `document.getElementById`: first element carrying the identifier. -/
def getElementById (dom : Dom) (i : String) : Option Elem :=
  dom.find? (fun e => e.id = i)

/-- `createFeedbackElement(inputElement, id)` (source lines 78–84): create a
`div`, set its `id` and `className = "form-text"`, append it as the last
child of the input's parent, and return it. -/
def createFeedbackElement (i : String) : Elem :=
  { id := i, className := "form-text", textContent := "", color := "" }

/-- The `document.getElementById(id) || createFeedbackElement(input, id)`
pattern used at source lines 25–26, 47–48 and 65–66: reuse the existing
feedback element, otherwise create one and append it.  Returns the element
together with the (possibly extended) document. -/
def getOrCreateFeedback (dom : Dom) (i : String) : Elem × Dom :=
  match getElementById dom i with
  | some e => (e, dom)
  | none => (createFeedbackElement i, dom ++ [createFeedbackElement i])

/-- Number of elements in the document carrying a given identifier. -/
def countId (dom : Dom) (i : String) : Nat :=
  (dom.filter (fun e => e.id = i)).length

/-- Overwrite the text and color of every element with the given identifier
(there is at most one): models mutating the feedback node through its
reference. -/
def updateElem (dom : Dom) (i : String) (f : Elem → Elem) : Dom :=
  dom.map (fun e => if e.id = i then f e else e)

/-- The Bootstrap success color used by the script. -/
def successColor : String := "#198754"

/-- The Bootstrap error color used by the script. -/
def errorColor : String := "#dc3545"

/-- JavaScript `String.prototype.trim`: remove leading and trailing
whitespace. -/
def jsTrim (s : String) : String :=
  ⟨((s.data.dropWhile Char.isWhitespace).reverse.dropWhile Char.isWhitespace).reverse⟩

/-! ### Username availability watcher (source lines 4–39) -/

/-- State of the username watcher: the pending debounce timer (due time in
milliseconds and the trimmed username captured at the keystroke), if any,
and the trace of request payloads issued so far. -/
structure UsernameState where
  pending : Option (Nat × String)
  requests : List String
deriving Repr, DecidableEq

/-- Initial state: no timer pending, no request issued. -/
def initUsernameState : UsernameState := { pending := none, requests := [] }

/-- The `input` listener body (source lines 8–38) at time `t` with raw field
value `v`: `clearTimeout` (unconditionally), trim, return if the trimmed
length is below 3, otherwise schedule the availability check 500 ms later,
capturing the trimmed value. -/
def handleInput (st : UsernameState) (t : Nat) (v : String) : UsernameState :=
  let st1 : UsernameState := { st with pending := none }
  let username := jsTrim v
  if username.length < 3 then st1
  else { st1 with pending := some (t + 500, username) }

/-- A pending timer fires: the availability request carrying the captured
trimmed username is issued. -/
def fireTimer (st : UsernameState) : UsernameState :=
  match st.pending with
  | some (_, u) => { pending := none, requests := st.requests ++ [u] }
  | none => st

/-- Event-loop step for a keystroke `(t, v)`: a pending timer whose due time
has been reached fires first, then the `input` listener runs. -/
def step (st : UsernameState) (e : Nat × String) : UsernameState :=
  let st1 :=
    match st.pending with
    | some (due, _) => if due ≤ e.1 then fireTimer st else st
    | none => st
  handleInput st1 e.1 e.2

/-- Run the watcher over a timestamped keystroke trace starting from the
initial state, then let time pass so that a still-pending timer fires. -/
def runUsername (events : List (Nat × String)) : UsernameState :=
  fireTimer (events.foldl step initUsernameState)

/-! ### Page-level attachment guards and the anti-forgery token lookup -/

/-- What the script finds on the page when `DOMContentLoaded` runs: which
input elements resolve, and the value of the `[name=csrf_token]` field if
that field is present (`none` models `document.querySelector` returning
`null`). -/
structure Page where
  hasUsername : Bool
  hasEmail : Bool
  hasPassword : Bool
  hasConfirm : Bool
  csrfToken : Option String
deriving Repr, DecidableEq

/-- The username watcher attaches iff `document.getElementById('username')`
resolves (source line 5). -/
def usernameWatcherAttaches (p : Page) : Bool := p.hasUsername

/-- The email watcher attaches iff `document.getElementById('email')`
resolves (source line 43). -/
def emailWatcherAttaches (p : Page) : Bool := p.hasEmail

/-- The password-confirmation watcher attaches iff both password inputs
resolve (source line 63). -/
def confirmWatcherAttaches (p : Page) : Bool := p.hasPassword && p.hasConfirm

/-- The timer callback reads
`document.querySelector('[name=csrf_token]').value` (source line 19) with no
existence guard: when the token field is absent the member access on `null`
throws a `TypeError`; otherwise the request headers are built and the fetch
is issued.  `.ok` carries the `X-CSRFToken` header value. -/
def buildCsrfHeader (p : Page) : Except String String :=
  match p.csrfToken with
  | none => Except.error "TypeError: null has no property value"
  | some tok => Except.ok tok

/-! ### JSON truthiness and the availability response handler -/

/-- Decoded JSON values as far as the script observes them, plus `undef` for
a missing object property. -/
inductive JsVal where
  | undef : JsVal
  | jnull : JsVal
  | jbool : Bool → JsVal
  | jnum : Int → JsVal
  | jstr : String → JsVal
deriving Repr, DecidableEq

/-- `data.available` on a decoded JSON object: the bound value, or
`undefined` when the key is absent. -/
def getField (data : List (String × JsVal)) (k : String) : JsVal :=
  match data.find? (fun kv => kv.1 = k) with
  | some kv => kv.2
  | none => JsVal.undef

/-- JavaScript truthiness: `undefined`, `null`, `false`, `0` and the empty
string are falsy, everything else this model can represent is truthy. -/
def truthy : JsVal → Bool
  | JsVal.undef => false
  | JsVal.jnull => false
  | JsVal.jbool b => b
  | JsVal.jnum n => n ≠ 0
  | JsVal.jstr s => s ≠ ""

/-- The availability branch of the response handler (source lines 28–34):
`if (data.available)` sets the success text and color, `else` the taken text
and error color. -/
def applyAvailability (data : List (String × JsVal)) (e : Elem) : Elem :=
  if truthy (getField data "available") then
    { e with textContent := "Username is available", color := successColor }
  else
    { e with textContent := "Username is already taken", color := errorColor }

/-- Outcome of `fetch(...)` followed by `response.json()`: the transport
fails, the body fails to decode, or a JSON object is produced. -/
inductive FetchOutcome where
  | transportError : FetchOutcome
  | decodeError : FetchOutcome
  | ok : List (String × JsVal) → FetchOutcome
deriving Repr, DecidableEq

/-- The `then`/`then`/`catch` chain of the availability request (source
lines 23–36): on a decoded object, resolve or create the
`username-feedback` element and apply the availability branch; on a
transport or decoding failure the rejection skips the data handler and
`console.error` logs it.  Returns the updated document and the log. -/
def fetchChain (dom : Dom) (o : FetchOutcome) : Dom × List String :=
  match o with
  | FetchOutcome.ok data =>
      let r := getOrCreateFeedback dom "username-feedback"
      (updateElem r.2 "username-feedback" (applyAvailability data), [])
  | FetchOutcome.transportError => (dom, ["Error: TypeError: Failed to fetch"])
  | FetchOutcome.decodeError => (dom, ["Error: SyntaxError: Unexpected token"])

/-! ### Email format watcher (source lines 42–57) -/

/-- A character admitted by `[^\s@]`: neither whitespace nor `@`. -/
def isAtomChar (c : Char) : Bool := !c.isWhitespace && c ≠ '@'

/-- The test of the anchored regular expression
`^[^\s@]+@[^\s@]+\.[^\s@]+$` (source line 46): the character list splits as
a nonempty run of atom characters, `@`, a nonempty run, `.`, a nonempty
run.  Implemented as a search over the positions of the `@` and of the
`.`. -/
def emailRegexTest (s : String) : Bool :=
  let cs := s.toList
  let n := cs.length
  (List.range n).any (fun i =>
    (List.range n).any (fun j =>
      decide (0 < i) && decide (i + 1 < j) && decide (j + 1 < n) &&
      (cs.getD i ' ' == '@') && (cs.getD j ' ' == '.') &&
      (cs.take i).all isAtomChar &&
      ((cs.drop (i + 1)).take (j - (i + 1))).all isAtomChar &&
      (cs.drop (j + 1)).all isAtomChar))

/-- The pattern exactly as the specification words it: one-or-more
non-whitespace-non-@ characters, `@`, one-or-more non-whitespace-non-@
characters, `.`, one-or-more non-whitespace-non-@ characters. -/
def specEmailPattern (s : String) : Prop :=
  ∃ a b c : List Char, a ≠ [] ∧ b ≠ [] ∧ c ≠ [] ∧
    (∀ x ∈ a, isAtomChar x = true) ∧ (∀ x ∈ b, isAtomChar x = true) ∧
    (∀ x ∈ c, isAtomChar x = true) ∧
    s.toList = a ++ '@' :: (b ++ '.' :: c)

/-- The `blur` listener of the email input (source lines 44–56): trim the
value, resolve or create `email-feedback`, and either show the error
message in the error color or clear the text.  The second component is the
list of network requests issued: the check is synchronous, so it is
empty. -/
def emailBlurHandler (dom : Dom) (v : String) : Dom × List String :=
  let email := jsTrim v
  let r := getOrCreateFeedback dom "email-feedback"
  if !emailRegexTest email then
    (updateElem r.2 "email-feedback" (fun e =>
      { e with textContent := "Please enter a valid email address", color := errorColor }), [])
  else
    (updateElem r.2 "email-feedback" (fun e => { e with textContent := "" }), [])

/-! ### Password-confirmation watcher (source lines 60–76) -/

/-- The `input` listener of the confirmation input (source lines 64–75):
resolve or create `confirm-password-feedback` and compare the confirmation
value with the password value by exact string equality.  The second
component is the list of network requests issued: none. -/
def confirmInputHandler (dom : Dom) (confirmValue passwordValue : String) :
    Dom × List String :=
  let r := getOrCreateFeedback dom "confirm-password-feedback"
  if confirmValue ≠ passwordValue then
    (updateElem r.2 "confirm-password-feedback" (fun e =>
      { e with textContent := "Passwords do not match", color := errorColor }), [])
  else
    (updateElem r.2 "confirm-password-feedback" (fun e =>
      { e with textContent := "Passwords match", color := successColor }), [])

/-! ### Helper lemmas about the document model -/

lemma getOrCreateFeedback_found (dom : Dom) (i : String) (e : Elem)
    (h : getElementById dom i = some e) :
    getOrCreateFeedback dom i = (e, dom) := by
  unfold getOrCreateFeedback
  rw [h]

lemma getOrCreateFeedback_missing (dom : Dom) (i : String)
    (h : getElementById dom i = none) :
    getOrCreateFeedback dom i = (createFeedbackElement i, dom ++ [createFeedbackElement i]) := by
  unfold getOrCreateFeedback
  rw [h]

lemma getElementById_snd_getOrCreateFeedback (dom : Dom) (i : String) :
    getElementById (getOrCreateFeedback dom i).2 i = some (getOrCreateFeedback dom i).1 := by
  cases h : getElementById dom i with
  | some e =>
    rw [getOrCreateFeedback_found dom i e h]
    exact h
  | none =>
    rw [getOrCreateFeedback_missing dom i h]
    unfold getElementById at h ⊢
    rw [List.find?_append, h]
    simp [createFeedbackElement]

lemma getElementById_updateElem (dom : Dom) (i : String) (f : Elem → Elem)
    (hf : ∀ e : Elem, e.id = i → (f e).id = i) :
    getElementById (updateElem dom i f) i = Option.map f (getElementById dom i) := by
  induction dom with
  | nil => rfl
  | cons e rest ih =>
    by_cases h : e.id = i
    · simp [updateElem, getElementById, List.find?_cons, h, hf e h]
    · simp only [updateElem, getElementById, List.map_cons, List.find?_cons, if_neg h] at ih ⊢
      simp only [decide_eq_false h]
      exact ih

lemma getElementById_update_after_provision (dom : Dom) (i : String) (f : Elem → Elem)
    (hf : ∀ e : Elem, e.id = i → (f e).id = i) :
    getElementById (updateElem (getOrCreateFeedback dom i).2 i f) i
      = some (f (getOrCreateFeedback dom i).1) := by
  rw [getElementById_updateElem _ _ _ hf, getElementById_snd_getOrCreateFeedback]
  rfl

lemma applyAvailability_id (data : List (String × JsVal)) (e : Elem) :
    (applyAvailability data e).id = e.id := by
  unfold applyAvailability
  by_cases h : truthy (getField data "available") <;> simp [h]

lemma countId_append (d1 d2 : Dom) (i : String) :
    countId (d1 ++ d2) i = countId d1 i + countId d2 i := by
  unfold countId
  rw [List.filter_append, List.length_append]

/-- Claim C2 theorem: an input event whose value trims to fewer than three
characters schedules no timer, and no request is ever issued for it (a
subsequent fire step leaves the request trace unchanged). -/
theorem short_username_no_timer_no_request (st : UsernameState) (t : Nat) (v : String)
    (h : (jsTrim v).length < 3) :
    (handleInput st t v).pending = none ∧
    (fireTimer (handleInput st t v)).requests = st.requests := by
  unfold handleInput fireTimer
  simp [h]

/-- Claim C2 witness: the concrete input "ab". -/
theorem short_username_no_timer_no_request_witness :
    (handleInput initUsernameState 0 "ab").pending = none ∧
    (fireTimer (handleInput initUsernameState 0 "ab")).requests = initUsernameState.requests :=
  short_username_no_timer_no_request initUsernameState 0 "ab" (by decide)

/-- Claim C3 counterexample: after "abc" at 0 ms and "ab" at 100 ms the
pending timer is cancelled by the unconditional clearTimeout, so no request
is ever issued — the claim predicts the request for "abc" still fires. -/
theorem pending_timer_cancelled_counterexample :
    (runUsername [(0, "abc"), (100, "ab")]).requests = [] ∧
    (runUsername [(0, "abc"), (100, "ab")]).requests ≠ ["abc"] := by
  constructor
  · rfl
  · decide

/-- Claim C3 amended theorem: a keystroke that arrives while a timer is
still pending (before its due time) and whose value trims to fewer than
three characters cancels that timer — clearTimeout runs unconditionally
before the length check — so the timer never fires and the request trace is
unchanged. -/
theorem pending_timer_cancelled_by_short_keystroke (due : Nat) (u : String)
    (reqs : List String) (t : Nat) (v : String)
    (hpend : t < due) (hlen : (jsTrim v).length < 3) :
    step ⟨some (due, u), reqs⟩ (t, v) = ⟨none, reqs⟩ := by
  unfold step handleInput fireTimer
  simp [Nat.not_le.mpr hpend, hlen]

/-- Claim C3 amended witness: timer for "abc" due at 500 ms, keystroke "ab"
at 100 ms. -/
theorem pending_timer_cancelled_by_short_keystroke_witness :
    step ⟨some (500, "abc"), []⟩ (100, "ab") = ⟨none, []⟩ :=
  pending_timer_cancelled_by_short_keystroke 500 "abc" [] 100 "ab" (by decide) (by decide)

/-- Claim C4 counterexample: on a page with the username input but no
`csrf_token` field the username watcher still attaches, and building the
request headers is a thrown `TypeError`, not a silent no-op. -/
theorem missing_csrf_token_counterexample :
    usernameWatcherAttaches
      { hasUsername := true, hasEmail := false, hasPassword := false,
        hasConfirm := false, csrfToken := none } = true ∧
    buildCsrfHeader
      { hasUsername := true, hasEmail := false, hasPassword := false,
        hasConfirm := false, csrfToken := none }
      = Except.error "TypeError: null has no property value" :=
  ⟨rfl, rfl⟩

/-- Claim C4 amended theorem: missing input elements make the corresponding
watcher not attach (a silent no-op), but the anti-forgery token lookup is
not guarded: attachment ignores the token field, and the timer callback
throws a `TypeError` exactly when the token field is absent. -/
theorem watcher_guards_and_csrf_lookup (p : Page) :
    usernameWatcherAttaches p = p.hasUsername ∧
    emailWatcherAttaches p = p.hasEmail ∧
    confirmWatcherAttaches p = (p.hasPassword && p.hasConfirm) ∧
    (p.csrfToken = none →
      buildCsrfHeader p = Except.error "TypeError: null has no property value") ∧
    (∀ tok : String, p.csrfToken = some tok → buildCsrfHeader p = Except.ok tok) := by
  refine ⟨rfl, rfl, rfl, ?_, ?_⟩
  · intro h
    unfold buildCsrfHeader
    rw [h]
  · intro tok h
    unfold buildCsrfHeader
    rw [h]

/-- Claim C4 amended witness: a page whose token field is absent. -/
theorem watcher_guards_and_csrf_lookup_witness :
    buildCsrfHeader
      { hasUsername := false, hasEmail := true, hasPassword := true,
        hasConfirm := true, csrfToken := none }
      = Except.error "TypeError: null has no property value" :=
  (watcher_guards_and_csrf_lookup
    { hasUsername := false, hasEmail := true, hasPassword := true,
      hasConfirm := true, csrfToken := none }).2.2.2.1 rfl

/-- Claim C5 theorem: on a transport failure or a JSON-decoding failure of
the availability request the document is unchanged — the feedback element
is neither mutated nor created — and the only effect is one diagnostic log
entry. -/
theorem failure_logs_only_no_ui_change (dom : Dom) :
    fetchChain dom FetchOutcome.transportError
      = (dom, ["Error: TypeError: Failed to fetch"]) ∧
    fetchChain dom FetchOutcome.decodeError
      = (dom, ["Error: SyntaxError: Unexpected token"]) :=
  ⟨rfl, rfl⟩

/-- Claim C6 theorem: a decoded response whose `available` field is the
boolean `b` makes the feedback element show "Username is available" in the
success color when `b` is true, and "Username is already taken" in the
error color when `b` is false. -/
theorem availability_boolean_feedback (dom : Dom) (data : List (String × JsVal)) (b : Bool)
    (h : getField data "available" = JsVal.jbool b) :
    ∃ e : Elem,
      getElementById (fetchChain dom (FetchOutcome.ok data)).1 "username-feedback" = some e ∧
      e.textContent = (if b then "Username is available" else "Username is already taken") ∧
      e.color = (if b then successColor else errorColor) := by
  refine ⟨applyAvailability data (getOrCreateFeedback dom "username-feedback").1, ?_, ?_, ?_⟩
  · show getElementById
      (updateElem (getOrCreateFeedback dom "username-feedback").2 "username-feedback"
        (applyAvailability data)) "username-feedback" = _
    exact getElementById_update_after_provision dom "username-feedback" (applyAvailability data)
      (fun e he => by rw [applyAvailability_id]; exact he)
  · unfold applyAvailability
    rw [h]
    cases b <;> simp [truthy]
  · unfold applyAvailability
    rw [h]
    cases b <;> simp [truthy]

/-- Claim C6 witness: the response object with `available = true` on an
empty document. -/
theorem availability_boolean_feedback_witness :
    ∃ e : Elem,
      getElementById
        (fetchChain [] (FetchOutcome.ok [("available", JsVal.jbool true)])).1
        "username-feedback" = some e ∧
      e.textContent = (if true then "Username is available" else "Username is already taken") ∧
      e.color = (if true then successColor else errorColor) :=
  availability_boolean_feedback [] [("available", JsVal.jbool true)] true rfl

/-- Claim C10 theorem: the availability handler tests `data.available` only
for truthiness — a decoded object is never treated as a failure (empty
log), the feedback text and color are decided by `truthy` of the field, a
missing key reads as `undefined`, the falsy values (`undefined`, `null`,
`false`, `0`, the empty string) all render "Username is already taken" in
the error color, and any non-zero number or non-empty string renders
"Username is available". -/
theorem availability_truthiness (dom : Dom) (data : List (String × JsVal)) :
    (fetchChain dom (FetchOutcome.ok data)).2 = [] ∧
    (∃ e : Elem,
      getElementById (fetchChain dom (FetchOutcome.ok data)).1 "username-feedback" = some e ∧
      e.textContent = (if truthy (getField data "available") then "Username is available"
        else "Username is already taken") ∧
      e.color = (if truthy (getField data "available") then successColor else errorColor)) ∧
    getField [] "available" = JsVal.undef ∧
    truthy JsVal.undef = false ∧
    truthy JsVal.jnull = false ∧
    truthy (JsVal.jbool false) = false ∧
    truthy (JsVal.jnum 0) = false ∧
    truthy (JsVal.jstr "") = false ∧
    (∀ n : Int, n ≠ 0 → truthy (JsVal.jnum n) = true) ∧
    (∀ s : String, s ≠ "" → truthy (JsVal.jstr s) = true) := by
  refine ⟨rfl, ⟨applyAvailability data (getOrCreateFeedback dom "username-feedback").1,
    ?_, ?_, ?_⟩, rfl, rfl, rfl, rfl, by decide, by decide, ?_, ?_⟩
  · show getElementById
      (updateElem (getOrCreateFeedback dom "username-feedback").2 "username-feedback"
        (applyAvailability data)) "username-feedback" = _
    exact getElementById_update_after_provision dom "username-feedback" (applyAvailability data)
      (fun e he => by rw [applyAvailability_id]; exact he)
  · by_cases ht : truthy (getField data "available") <;> simp [applyAvailability, ht]
  · by_cases ht : truthy (getField data "available") <;> simp [applyAvailability, ht]
  · intro n hn
    simp [truthy, hn]
  · intro s hs
    simp [truthy, hs]

/-- Claim C10 witness: the number 1 and a non-empty string are rendered as
available. -/
theorem availability_truthiness_witness :
    truthy (JsVal.jnum 1) = true ∧ truthy (JsVal.jstr "yes") = true :=
  ⟨(availability_truthiness [] []).2.2.2.2.2.2.2.2.1 1 (by decide),
   (availability_truthiness [] []).2.2.2.2.2.2.2.2.2 "yes" (by decide)⟩

lemma countId_pos_of_getElementById (dom : Dom) (i : String) (e : Elem)
    (h : getElementById dom i = some e) : 0 < countId dom i := by
  unfold getElementById at h
  unfold countId
  rw [List.length_pos]
  intro hnil
  have hmem : e ∈ dom := List.mem_of_find?_eq_some h
  have hp := List.find?_some h
  have : e ∈ dom.filter (fun e => e.id = i) := List.mem_filter.mpr ⟨hmem, hp⟩
  rw [hnil] at this
  exact List.not_mem_nil e this

lemma countId_eq_zero_of_getElementById_none (dom : Dom) (i : String)
    (h : getElementById dom i = none) : countId dom i = 0 := by
  unfold getElementById at h
  unfold countId
  rw [List.filter_eq_nil_iff.mpr (List.find?_eq_none.mp h)]
  rfl

/-- Claim C7 theorem: feedback provisioning is idempotent — after a call,
an element with the identifier is in the document and is the returned one,
a second call returns the same element and leaves the document unchanged,
the element count for the identifier is exactly one (so no duplicates), and
in the creating case the new node is appended at the end with the
`form-text` hint class. -/
theorem feedback_provisioning_idempotent (dom : Dom) (i : String) (h : countId dom i ≤ 1) :
    getElementById (getOrCreateFeedback dom i).2 i = some (getOrCreateFeedback dom i).1 ∧
    getOrCreateFeedback (getOrCreateFeedback dom i).2 i = getOrCreateFeedback dom i ∧
    countId (getOrCreateFeedback dom i).2 i = 1 ∧
    (getElementById dom i = none →
      (getOrCreateFeedback dom i).2 = dom ++ [(getOrCreateFeedback dom i).1] ∧
      (getOrCreateFeedback dom i).1.className = "form-text") := by
  refine ⟨getElementById_snd_getOrCreateFeedback dom i, ?_, ?_, ?_⟩
  · exact (getOrCreateFeedback_found _ i _ (getElementById_snd_getOrCreateFeedback dom i)).trans
      Prod.mk.eta
  · cases hf : getElementById dom i with
    | some e =>
      rw [getOrCreateFeedback_found dom i e hf]
      exact Nat.le_antisymm h (countId_pos_of_getElementById dom i e hf)
    | none =>
      rw [getOrCreateFeedback_missing dom i hf]
      show countId (dom ++ [createFeedbackElement i]) i = 1
      rw [countId_append, countId_eq_zero_of_getElementById_none dom i hf]
      simp [countId, createFeedbackElement]
  · intro hf
    rw [getOrCreateFeedback_missing dom i hf]
    exact ⟨rfl, rfl⟩

/-- Claim C7 witness: provisioning on the empty document. -/
theorem feedback_provisioning_idempotent_witness :
    getElementById (getOrCreateFeedback [] "username-feedback").2 "username-feedback"
      = some (getOrCreateFeedback [] "username-feedback").1 ∧
    getOrCreateFeedback (getOrCreateFeedback [] "username-feedback").2 "username-feedback"
      = getOrCreateFeedback [] "username-feedback" ∧
    countId (getOrCreateFeedback [] "username-feedback").2 "username-feedback" = 1 ∧
    (getElementById ([] : Dom) "username-feedback" = none →
      (getOrCreateFeedback [] "username-feedback").2
        = [] ++ [(getOrCreateFeedback [] "username-feedback").1] ∧
      (getOrCreateFeedback [] "username-feedback").1.className = "form-text") :=
  feedback_provisioning_idempotent [] "username-feedback" (by decide)

/-- Claim C9 theorem: on every change to the confirmation input the handler
issues no network request, and the feedback element shows "Passwords match"
in the success color exactly when the confirmation value equals the
password value by string equality, "Passwords do not match" in the error
color otherwise; the watcher does not attach when either password input is
absent. -/
theorem confirm_password_comparison (dom : Dom) (cv pv : String) :
    (confirmInputHandler dom cv pv).2 = [] ∧
    (∃ e : Elem,
      getElementById (confirmInputHandler dom cv pv).1 "confirm-password-feedback" = some e ∧
      e.textContent = (if cv = pv then "Passwords match" else "Passwords do not match") ∧
      e.color = (if cv = pv then successColor else errorColor)) ∧
    (∀ p : Page, p.hasPassword = false ∨ p.hasConfirm = false →
      confirmWatcherAttaches p = false) := by
  refine ⟨?_, ?_, ?_⟩
  · unfold confirmInputHandler
    by_cases hcv : cv = pv <;> simp [hcv]
  · by_cases hcv : cv = pv
    · refine ⟨{ (getOrCreateFeedback dom "confirm-password-feedback").1 with
        textContent := "Passwords match", color := successColor }, ?_, by simp [hcv], by simp [hcv]⟩
      unfold confirmInputHandler
      simp only [hcv, ne_eq, not_true_eq_false, if_false, Bool.false_eq_true]
      exact getElementById_update_after_provision dom "confirm-password-feedback" _
        (fun e he => he)
    · refine ⟨{ (getOrCreateFeedback dom "confirm-password-feedback").1 with
        textContent := "Passwords do not match", color := errorColor }, ?_,
        by simp [hcv], by simp [hcv]⟩
      unfold confirmInputHandler
      simp only [ne_eq, hcv, not_false_eq_true, if_true]
      exact getElementById_update_after_provision dom "confirm-password-feedback" _
        (fun e he => he)
  · intro p hp
    unfold confirmWatcherAttaches
    rcases hp with hp | hp <;> simp [hp]

/-- Claim C9 witness: matching values on the empty document, and a page
missing the confirmation input. -/
theorem confirm_password_comparison_witness :
    confirmWatcherAttaches
      { hasUsername := true, hasEmail := true, hasPassword := true,
        hasConfirm := false, csrfToken := some "t" } = false :=
  (confirm_password_comparison [] "Secret1" "Secret1").2.2
    { hasUsername := true, hasEmail := true, hasPassword := true,
      hasConfirm := false, csrfToken := some "t" } (Or.inr rfl)

/-! ### The debounce property -/

lemma handleInput_eq (p : Option (Nat × String)) (reqs : List String) (t : Nat) (v : String) :
    handleInput ⟨p, reqs⟩ t v
      = ⟨if (jsTrim v).length < 3 then none else some (t + 500, jsTrim v), reqs⟩ := by
  unfold handleInput
  by_cases h : (jsTrim v).length < 3 <;> simp [h]

lemma step_no_fire (p : Option (Nat × String)) (reqs : List String) (t2 : Nat) (v2 : String)
    (hp : ∀ due u, p = some (due, u) → t2 < due) :
    step ⟨p, reqs⟩ (t2, v2) = handleInput ⟨none, reqs⟩ t2 v2 := by
  cases p with
  | none => rfl
  | some du =>
    obtain ⟨due, u⟩ := du
    have hlt := hp due u rfl
    show handleInput (if due ≤ t2 then fireTimer ⟨some (due, u), reqs⟩
      else ⟨some (due, u), reqs⟩) t2 v2 = _
    rw [if_neg (Nat.not_le.mpr hlt), handleInput_eq, handleInput_eq]

lemma foldl_step_debounced (es : List (Nat × String)) :
    ∀ (t : Nat) (v : String),
      List.Chain' (fun a b : Nat × String => a.1 ≤ b.1 ∧ b.1 < a.1 + 500) ((t, v) :: es) →
      es.foldl step (handleInput ⟨none, []⟩ t v)
        = handleInput ⟨none, []⟩ (es.getLastD (t, v)).1 (es.getLastD (t, v)).2 := by
  induction es with
  | nil =>
    intro t v _
    rfl
  | cons e es ih =>
    intro t v hchain
    obtain ⟨t2, v2⟩ := e
    rw [List.chain'_cons] at hchain
    obtain ⟨⟨hle, hlt⟩, hchain2⟩ := hchain
    rw [List.foldl_cons]
    have hstep : step (handleInput ⟨none, []⟩ t v) (t2, v2) = handleInput ⟨none, []⟩ t2 v2 := by
      rw [handleInput_eq]
      apply step_no_fire
      intro due u hdu
      by_cases h : (jsTrim v).length < 3
      · rw [if_pos h] at hdu
        cases hdu
      · rw [if_neg h] at hdu
        simp only [Option.some.injEq, Prod.mk.injEq] at hdu
        omega
    rw [hstep, List.getLastD_cons]
    exact ih t2 v2 hchain2

/-- Claim C1 theorem: over any nonempty keystroke sequence whose consecutive
events are less than 500 ms apart, if the final value trims to length at
least 3, then exactly one availability request is issued, carrying the
trimmed value captured at the final keystroke. -/
theorem debounced_single_request (t : Nat) (v : String) (es : List (Nat × String))
    (hchain : List.Chain' (fun a b : Nat × String => a.1 ≤ b.1 ∧ b.1 < a.1 + 500) ((t, v) :: es))
    (hlen : 3 ≤ (jsTrim (es.getLastD (t, v)).2).length) :
    (runUsername ((t, v) :: es)).requests = [jsTrim (es.getLastD (t, v)).2] := by
  unfold runUsername
  rw [List.foldl_cons]
  have h1 : step initUsernameState (t, v) = handleInput ⟨none, []⟩ t v := rfl
  rw [h1, foldl_step_debounced es t v hchain, handleInput_eq,
    if_neg (Nat.not_lt.mpr hlen)]
  rfl

/-- Claim C1 witness: keystrokes "a" at 0 ms and "abc" at 100 ms yield the
single request "abc". -/
theorem debounced_single_request_witness :
    (runUsername [(0, "a"), (100, "abc")]).requests = ["abc"] :=
  debounced_single_request 0 "a" [(100, "abc")]
    (List.chain'_cons.mpr ⟨⟨by decide, by decide⟩, List.chain'_singleton _⟩) (by decide)

/-! ### The email regular expression matches exactly the specified pattern -/

lemma emailRegexTest_iff (s : String) :
    emailRegexTest s = true ↔ specEmailPattern s := by
  unfold specEmailPattern
  constructor
  · intro h
    simp only [emailRegexTest, List.any_eq_true, List.mem_range, Bool.and_eq_true,
      decide_eq_true_eq, List.all_eq_true, beq_iff_eq] at h
    obtain ⟨i, hi, j, hj, ⟨⟨⟨⟨⟨⟨h0i, hij⟩, hjn⟩, hat⟩, hdot⟩, ha⟩, hbm⟩, hc⟩ := h
    have hat2 : (s.toList)[i] = '@' := (List.getD_eq_getElem s.toList ' ' hi).symm.trans hat
    have hdot2 : (s.toList)[j] = '.' := (List.getD_eq_getElem s.toList ' ' hj).symm.trans hdot
    refine ⟨(s.toList).take i, ((s.toList).drop (i + 1)).take (j - (i + 1)),
      (s.toList).drop (j + 1), ?_, ?_, ?_, ha, hbm, hc, ?_⟩
    · rw [← List.length_pos, List.length_take]
      exact lt_min (by omega) (by omega)
    · rw [← List.length_pos, List.length_take, List.length_drop]
      exact lt_min (by omega) (by omega)
    · rw [← List.length_pos, List.length_drop]
      omega
    · have hdropi : (s.toList).drop i = '@' :: (s.toList).drop (i + 1) := by
        rw [List.drop_eq_getElem_cons hi, hat2]
      have hdropj : (s.toList).drop j = '.' :: (s.toList).drop (j + 1) := by
        rw [List.drop_eq_getElem_cons hj, hdot2]
      have hdropi1 : (s.toList).drop (i + 1)
          = ((s.toList).drop (i + 1)).take (j - (i + 1)) ++ (s.toList).drop j := by
        conv_lhs => rw [← List.take_append_drop (j - (i + 1)) ((s.toList).drop (i + 1))]
        rw [List.drop_drop]
        have h1 : i + 1 + (j - (i + 1)) = j := by omega
        rw [h1]
      conv_lhs => rw [← List.take_append_drop i s.toList, hdropi, hdropi1, hdropj]
  · rintro ⟨a, b, c, ha0, hb0, hc0, ha, hb, hc, hsplit⟩
    have haL : 0 < a.length := List.length_pos.mpr ha0
    have hbL : 0 < b.length := List.length_pos.mpr hb0
    have hcL : 0 < c.length := List.length_pos.mpr hc0
    have hn : s.toList.length = a.length + 1 + b.length + 1 + c.length := by
      rw [hsplit]
      simp [List.length_append]
      omega
    have hsplit2 : s.toList = (a ++ '@' :: b) ++ '.' :: c := by
      rw [hsplit]
      simp [List.append_assoc]
    have hL2 : (a ++ '@' :: b).length = a.length + 1 + b.length := by
      simp [List.length_append]
      omega
    have hat : (s.toList).getD a.length ' ' = '@' := by
      rw [List.getD_eq_getElem?_getD, hsplit,
        List.getElem?_append_right (Nat.le_refl a.length), Nat.sub_self]
      simp
    have hdot : (s.toList).getD (a.length + 1 + b.length) ' ' = '.' := by
      rw [List.getD_eq_getElem?_getD, hsplit2, List.getElem?_append_right (by omega)]
      have h0 : a.length + 1 + b.length - (a ++ '@' :: b).length = 0 := by
        rw [hL2]
        omega
      rw [h0]
      simp
    have hta : (s.toList).take a.length = a := by
      rw [hsplit]
      exact List.take_left a ('@' :: (b ++ '.' :: c))
    have hda : (s.toList).drop (a.length + 1) = b ++ '.' :: c := by
      rw [hsplit]
      have h1 : a.length + 1 = (a ++ ['@']).length := by simp
      have h2 : a ++ '@' :: (b ++ '.' :: c) = (a ++ ['@']) ++ (b ++ '.' :: c) := by simp
      rw [h1, h2, List.drop_left]
    have htb : ((s.toList).drop (a.length + 1)).take (a.length + 1 + b.length - (a.length + 1))
        = b := by
      rw [hda]
      have h1 : a.length + 1 + b.length - (a.length + 1) = b.length := by omega
      rw [h1]
      exact List.take_left b ('.' :: c)
    have hdc : (s.toList).drop (a.length + 1 + b.length + 1) = c := by
      rw [hsplit2]
      have h1 : a.length + 1 + b.length + 1 = ((a ++ '@' :: b) ++ ['.']).length := by
        simp
        omega
      have h2 : (a ++ '@' :: b) ++ '.' :: c = ((a ++ '@' :: b) ++ ['.']) ++ c := by simp
      rw [h1, h2, List.drop_left]
    simp only [emailRegexTest, List.any_eq_true, List.mem_range, Bool.and_eq_true,
      decide_eq_true_eq, List.all_eq_true, beq_iff_eq]
    refine ⟨a.length, by omega, a.length + 1 + b.length, by omega,
      ⟨⟨⟨⟨⟨⟨by omega, by omega⟩, by omega⟩, hat⟩, hdot⟩, ?_⟩, ?_⟩, ?_⟩
    · rw [hta]
      exact ha
    · rw [htb]
      exact hb
    · rw [hdc]
      exact hc

/-- Claim C8 theorem: on every blur of the email input no network request
is issued, the trimmed value is tested against exactly the pattern
one-or-more non-whitespace-non-@ characters, `@`, one-or-more, `.`,
one-or-more (the characterization of the source regular expression), and
the feedback element shows "Please enter a valid email address" in the
error color when the test fails, while its text is cleared when it
passes. -/
theorem email_blur_validation (dom : Dom) (v : String) :
    (emailBlurHandler dom v).2 = [] ∧
    (emailRegexTest (jsTrim v) = true ↔ specEmailPattern (jsTrim v)) ∧
    (∃ e : Elem,
      getElementById (emailBlurHandler dom v).1 "email-feedback" = some e ∧
      e.textContent = (if emailRegexTest (jsTrim v) then ""
        else "Please enter a valid email address") ∧
      (emailRegexTest (jsTrim v) = false → e.color = errorColor)) := by
  refine ⟨?_, emailRegexTest_iff (jsTrim v), ?_⟩
  · unfold emailBlurHandler
    by_cases h : emailRegexTest (jsTrim v) <;> simp [h]
  · by_cases h : emailRegexTest (jsTrim v)
    · refine ⟨{ (getOrCreateFeedback dom "email-feedback").1 with textContent := "" },
        ?_, by simp [h], by simp [h]⟩
      unfold emailBlurHandler
      simp only [h, Bool.not_true, Bool.false_eq_true, if_false]
      exact getElementById_update_after_provision dom "email-feedback" _ (fun e he => he)
    · rw [Bool.not_eq_true] at h
      refine ⟨{ (getOrCreateFeedback dom "email-feedback").1 with
        textContent := "Please enter a valid email address", color := errorColor },
        ?_, by simp [h], by simp [h]⟩
      unfold emailBlurHandler
      simp only [h, Bool.not_false, if_true]
      exact getElementById_update_after_provision dom "email-feedback" _ (fun e he => he)

/-- Claim C8 witness: the concrete blur value "not-an-email" on the empty
document. -/
theorem email_blur_validation_witness :
    (emailBlurHandler [] "not-an-email").2 = [] ∧
    (emailRegexTest (jsTrim "not-an-email") = true
      ↔ specEmailPattern (jsTrim "not-an-email")) ∧
    (∃ e : Elem,
      getElementById (emailBlurHandler [] "not-an-email").1 "email-feedback" = some e ∧
      e.textContent = (if emailRegexTest (jsTrim "not-an-email") then ""
        else "Please enter a valid email address") ∧
      (emailRegexTest (jsTrim "not-an-email") = false → e.color = errorColor)) :=
  email_blur_validation [] "not-an-email"
